import Mathlib

/-!
Verification of the `sysinfo_dot_h` crate (src/lib.rs): a shallow embedding
of the `sysinfo` struct, the two wrapper functions `try_collect` and
`collect`, and the repr(C) layout of the struct on x86-64 Linux.

The native FFI call `sysinfo(info: *mut sysinfo) -> c_int` is only declared
in the source (an `extern "C"` block); its behaviour is therefore a
parameter of the embedding: a status code together with a function
describing what the call writes into the caller-supplied buffer.
-/

namespace SysinfoDotH

/-- Embedding of the Rust struct `sysinfo` (src/lib.rs, lines 10-42).
Field order follows the source.  `uptime` is a `c_long` (signed), the
memory quantities are `c_ulong` (unsigned), `procs` and `pad` are
`c_ushort`, `mem_unit` is a `c_uint`; `loads` embeds `[c_ulong; 3]` as a
triple.  The private zero-length member `_f : [c_char; 0]` carries no
value and so has no counterpart here (it appears in the layout model
below). -/
structure sysinfo where
  uptime : Int
  loads : Nat × Nat × Nat
  totalram : Nat
  freeram : Nat
  sharedram : Nat
  bufferram : Nat
  totalswap : Nat
  freeswap : Nat
  procs : Nat
  pad : Nat
  totalhigh : Nat
  freehigh : Nat
  mem_unit : Nat
  deriving DecidableEq

/-- The all-zero snapshot produced by `std::mem::zeroed()` in both
wrappers (src/lib.rs lines 88 and 118). -/
def zeroed : sysinfo :=
  ⟨0, (0, 0, 0), 0, 0, 0, 0, 0, 0, 0, 0, 0, 0, 0⟩

/-- One possible behaviour of the native `sysinfo` call: the integer
status code it returns and the transformation it performs on the
caller-supplied buffer. -/
structure NativeBehavior where
  status : Int
  write : sysinfo → sysinfo

/-- Embedding of `try_collect` (src/lib.rs, lines 86-96): zero the
buffer, let the native call write into it, then return `Ok` with the
buffer when the status code is 0 and the constant error string
otherwise. -/
def try_collect (env : NativeBehavior) : Except String sysinfo :=
  let info : sysinfo := zeroed
  let info' : sysinfo := env.write info
  if env.status = 0 then Except.ok info'
  else Except.error "Failed to get the sysinfo struct"

/-- Embedding of `collect` (src/lib.rs, lines 116-122): zero the buffer,
let the native call write into it, and return the buffer, ignoring the
status code. -/
def collect (env : NativeBehavior) : sysinfo :=
  let info : sysinfo := zeroed
  env.write info

/-- A field-wise description of which fields a particular native call
overwrites (`some v` means the field is written with value `v`, `none`
means the call leaves the buffer's value in place).  Used to state the
claims about fields the native call did not overwrite. -/
structure NativeWrite where
  uptime? : Option Int
  loads? : Option (Nat × Nat × Nat)
  totalram? : Option Nat
  freeram? : Option Nat
  sharedram? : Option Nat
  bufferram? : Option Nat
  totalswap? : Option Nat
  freeswap? : Option Nat
  procs? : Option Nat
  pad? : Option Nat
  totalhigh? : Option Nat
  freehigh? : Option Nat
  mem_unit? : Option Nat

/-- Apply a field-wise native write to a buffer: written fields take the
written value, unwritten fields keep the buffer's value. -/
def applyWrite (w : NativeWrite) (s : sysinfo) : sysinfo :=
  ⟨w.uptime?.getD s.uptime,
   w.loads?.getD s.loads,
   w.totalram?.getD s.totalram,
   w.freeram?.getD s.freeram,
   w.sharedram?.getD s.sharedram,
   w.bufferram?.getD s.bufferram,
   w.totalswap?.getD s.totalswap,
   w.freeswap?.getD s.freeswap,
   w.procs?.getD s.procs,
   w.pad?.getD s.pad,
   w.totalhigh?.getD s.totalhigh,
   w.freehigh?.getD s.freehigh,
   w.mem_unit?.getD s.mem_unit⟩

/-- A native call that writes nothing at all. -/
def emptyWrite : NativeWrite :=
  ⟨none, none, none, none, none, none, none, none, none, none, none, none, none⟩

/-- The kernel statistics a successful native call reports.  All counts
are natural numbers; in particular uptime is a count of seconds since
boot. -/
structure KernelState where
  uptimeSeconds : Nat
  loads : Nat × Nat × Nat
  totalram : Nat
  freeram : Nat
  sharedram : Nat
  bufferram : Nat
  totalswap : Nat
  freeswap : Nat
  procs : Nat
  totalhigh : Nat
  freehigh : Nat
  mem_unit : Nat

/-- Modelled from the spec: the native system-information call, whose
implementation is outside the repository (src/lib.rs only declares it in
an `extern "C"` block).  Per the spec it fills the caller-supplied
buffer with the kernel-tracked statistics — uptime is the number of
seconds since boot, a non-negative count — and returns status 0 on
success. -/
def nativeCall (k : KernelState) : NativeBehavior :=
  ⟨0, fun s =>
    ⟨(k.uptimeSeconds : Int), k.loads, k.totalram, k.freeram, k.sharedram,
     k.bufferram, k.totalswap, k.freeswap, k.procs, s.pad, k.totalhigh,
     k.freehigh, k.mem_unit⟩⟩

/-- A sample kernel state used to witness the uptime claim. -/
def k0 : KernelState :=
  ⟨5, (1, 2, 3), 1024, 512, 0, 64, 256, 256, 42, 0, 0, 1⟩

/-- A C-level field: name, byte size, byte alignment and signedness.
Array fields carry the total size of the array and the alignment of the
element type. -/
structure FieldDesc where
  name : String
  size : Nat
  align : Nat
  signed : Bool
  deriving DecidableEq

/-- Round `off` up to the next multiple of the alignment `a`. -/
def alignUp (off a : Nat) : Nat :=
  if a = 0 then off else ((off + a - 1) / a) * a

/-- The size of a repr(C) struct with the given fields: lay the fields
out in order, aligning each to its own alignment, then round the end
offset up to the struct alignment (the maximum field alignment). -/
def structSize (fs : List FieldDesc) : Nat :=
  let l := fs.foldl (fun acc f => (alignUp acc.1 f.align + f.size, max acc.2 f.align)) (0, 1)
  alignUp l.1 l.2

/-- The fields of the Rust `sysinfo` struct (src/lib.rs, lines 10-42) on
x86-64 Linux, where `c_long` and `c_ulong` are 8 bytes, `c_ushort` is 2,
`c_uint` is 4 and `c_char` is 1.  Order is the source order; `loads` is
`[c_ulong; 3]` (24 bytes, 8-byte aligned) and `_f` is `[c_char; 0]`
(0 bytes, 1-byte aligned). -/
def rustSysinfoFields : List FieldDesc :=
  [⟨"uptime", 8, 8, true⟩,
   ⟨"loads", 24, 8, false⟩,
   ⟨"totalram", 8, 8, false⟩,
   ⟨"freeram", 8, 8, false⟩,
   ⟨"sharedram", 8, 8, false⟩,
   ⟨"bufferram", 8, 8, false⟩,
   ⟨"totalswap", 8, 8, false⟩,
   ⟨"freeswap", 8, 8, false⟩,
   ⟨"procs", 2, 2, false⟩,
   ⟨"pad", 2, 2, false⟩,
   ⟨"totalhigh", 8, 8, false⟩,
   ⟨"freehigh", 8, 8, false⟩,
   ⟨"mem_unit", 4, 4, false⟩,
   ⟨"_f", 0, 1, false⟩]

/-- Modelled from the spec: the native Linux kernel `struct sysinfo` for
the x86-64 platform family, whose definition lives in the kernel headers
and not in this repository.  Per the spec's data model: a signed uptime,
three unsigned load averages, eight unsigned memory quantities, the
unsigned process count, the 16-bit m68k padding field, the unsigned
memory unit, and the trailing zero-length padding member
`char _f[20 - 2*sizeof(ulong) - sizeof(u32)]`, which is empty when the
unsigned long is 8 bytes. -/
def linuxSysinfoFields : List FieldDesc :=
  [⟨"uptime", 8, 8, true⟩,
   ⟨"loads", 24, 8, false⟩,
   ⟨"totalram", 8, 8, false⟩,
   ⟨"freeram", 8, 8, false⟩,
   ⟨"sharedram", 8, 8, false⟩,
   ⟨"bufferram", 8, 8, false⟩,
   ⟨"totalswap", 8, 8, false⟩,
   ⟨"freeswap", 8, 8, false⟩,
   ⟨"procs", 2, 2, false⟩,
   ⟨"pad", 2, 2, false⟩,
   ⟨"totalhigh", 8, 8, false⟩,
   ⟨"freehigh", 8, 8, false⟩,
   ⟨"mem_unit", 4, 4, false⟩,
   ⟨"_f", 0, 1, false⟩]

/-- Claim C1: for every behaviour of the native call, `try_collect`
returns `Ok` carrying the snapshot the native call populated when the
status code is 0, and an `Err` value for every non-zero status code. -/
theorem try_collect_status_dispatch (env : NativeBehavior) :
    (env.status = 0 → try_collect env = Except.ok (env.write zeroed)) ∧
    (env.status ≠ 0 → ∃ e : String, try_collect env = Except.error e) := by
  constructor
  · intro h
    simp [try_collect, h]
  · intro h
    exact ⟨"Failed to get the sysinfo struct", by simp [try_collect, h]⟩

/-- Witness for C1 at the concrete behaviours with status 0 and 1. -/
theorem try_collect_status_dispatch_witness :
    try_collect ⟨0, id⟩ = Except.ok (id zeroed) ∧
    ∃ e : String, try_collect ⟨1, id⟩ = Except.error e :=
  ⟨(try_collect_status_dispatch ⟨0, id⟩).1 rfl,
   (try_collect_status_dispatch ⟨1, id⟩).2 (by decide)⟩

/-- Claim C2: `collect` never signals an error: for every behaviour of
the native call it returns the populated snapshot, and its result does
not depend on the status code at all. -/
theorem collect_no_error (env : NativeBehavior) :
    collect env = env.write zeroed ∧
    ∀ env' : NativeBehavior, env'.write = env.write → collect env' = collect env := by
  refine ⟨rfl, ?_⟩
  intro env' h
  simp [collect, h]

/-- Witness for C2: same write with statuses 1 and 0 produce the same
snapshot. -/
theorem collect_no_error_witness :
    collect ⟨0, id⟩ = id zeroed ∧ collect ⟨1, id⟩ = collect ⟨0, id⟩ :=
  ⟨(collect_no_error ⟨0, id⟩).1, (collect_no_error ⟨0, id⟩).2 ⟨1, id⟩ rfl⟩

/-- Claim C3: for the same native-call behaviour, when the status is 0
the snapshot `collect` returns equals the snapshot `try_collect` returns
inside `Ok`. -/
theorem collect_refines_try_collect (env : NativeBehavior) (h : env.status = 0) :
    try_collect env = Except.ok (collect env) := by
  simp [try_collect, collect, h]

/-- Witness for C3 at the status-0 identity behaviour. -/
theorem collect_refines_try_collect_witness :
    try_collect ⟨0, id⟩ = Except.ok (collect ⟨0, id⟩) :=
  collect_refines_try_collect ⟨0, id⟩ rfl

/-- Claim C4: both operations hand the native call a zero-initialized
buffer, so whatever the status code is, every field the native call did
not overwrite equals zero in the snapshot `collect` returns. -/
theorem zeroed_fields_survive (w : NativeWrite) (stat : Int) :
    collect ⟨stat, applyWrite w⟩ = applyWrite w zeroed ∧
    (stat = 0 → try_collect ⟨stat, applyWrite w⟩ = Except.ok (applyWrite w zeroed)) ∧
    (w.uptime? = none → (collect ⟨stat, applyWrite w⟩).uptime = 0) ∧
    (w.loads? = none → (collect ⟨stat, applyWrite w⟩).loads = (0, 0, 0)) ∧
    (w.totalram? = none → (collect ⟨stat, applyWrite w⟩).totalram = 0) ∧
    (w.freeram? = none → (collect ⟨stat, applyWrite w⟩).freeram = 0) ∧
    (w.sharedram? = none → (collect ⟨stat, applyWrite w⟩).sharedram = 0) ∧
    (w.bufferram? = none → (collect ⟨stat, applyWrite w⟩).bufferram = 0) ∧
    (w.totalswap? = none → (collect ⟨stat, applyWrite w⟩).totalswap = 0) ∧
    (w.freeswap? = none → (collect ⟨stat, applyWrite w⟩).freeswap = 0) ∧
    (w.procs? = none → (collect ⟨stat, applyWrite w⟩).procs = 0) ∧
    (w.pad? = none → (collect ⟨stat, applyWrite w⟩).pad = 0) ∧
    (w.totalhigh? = none → (collect ⟨stat, applyWrite w⟩).totalhigh = 0) ∧
    (w.freehigh? = none → (collect ⟨stat, applyWrite w⟩).freehigh = 0) ∧
    (w.mem_unit? = none → (collect ⟨stat, applyWrite w⟩).mem_unit = 0) := by
  refine ⟨rfl, ?_, ?_, ?_, ?_, ?_, ?_, ?_, ?_, ?_, ?_, ?_, ?_, ?_, ?_⟩ <;>
    intro h <;> simp [collect, try_collect, applyWrite, zeroed, h]

/-- Witness for C4 at the native call that writes nothing and fails with
status 1: every field of the returned snapshot is zero. -/
theorem zeroed_fields_survive_witness :
    (collect ⟨1, applyWrite emptyWrite⟩).uptime = 0 ∧
    (collect ⟨1, applyWrite emptyWrite⟩).loads = (0, 0, 0) ∧
    (collect ⟨1, applyWrite emptyWrite⟩).totalram = 0 ∧
    (collect ⟨1, applyWrite emptyWrite⟩).freeram = 0 ∧
    (collect ⟨1, applyWrite emptyWrite⟩).sharedram = 0 ∧
    (collect ⟨1, applyWrite emptyWrite⟩).bufferram = 0 ∧
    (collect ⟨1, applyWrite emptyWrite⟩).totalswap = 0 ∧
    (collect ⟨1, applyWrite emptyWrite⟩).freeswap = 0 ∧
    (collect ⟨1, applyWrite emptyWrite⟩).procs = 0 ∧
    (collect ⟨1, applyWrite emptyWrite⟩).pad = 0 ∧
    (collect ⟨1, applyWrite emptyWrite⟩).totalhigh = 0 ∧
    (collect ⟨1, applyWrite emptyWrite⟩).freehigh = 0 ∧
    (collect ⟨1, applyWrite emptyWrite⟩).mem_unit = 0 := by
  obtain ⟨-, -, h1, h2, h3, h4, h5, h6, h7, h8, h9, h10, h11, h12, h13⟩ :=
    zeroed_fields_survive emptyWrite 1
  exact ⟨h1 rfl, h2 rfl, h3 rfl, h4 rfl, h5 rfl, h6 rfl, h7 rfl, h8 rfl,
         h9 rfl, h10 rfl, h11 rfl, h12 rfl, h13 rfl⟩

/-- Claim C5: the Rust struct's field order, signedness and widths match
the native Linux kernel structure field for field, and its repr(C) byte
size equals the native structure's byte size (112 bytes on x86-64,
including the m68k `pad` field and the trailing zero-length member). -/
theorem sysinfo_layout_matches_native :
    rustSysinfoFields = linuxSysinfoFields ∧
    structSize rustSysinfoFields = 112 ∧
    structSize linuxSysinfoFields = 112 :=
  ⟨rfl, by decide, by decide⟩

/-- Claim C6: every non-zero status code produces the one and only error
value, the constant string, with no decoding of the status code. -/
theorem try_collect_single_error (env : NativeBehavior) (h : env.status ≠ 0) :
    try_collect env = Except.error "Failed to get the sysinfo struct" := by
  simp [try_collect, h]

/-- Witness for C6 at a failing behaviour with status 1. -/
theorem try_collect_single_error_witness :
    try_collect ⟨1, id⟩ = Except.error "Failed to get the sysinfo struct" :=
  try_collect_single_error ⟨1, id⟩ (by decide)

/-- Claim C7: every successful call to `try_collect` against the native
call modelled from the spec returns a snapshot with non-negative uptime,
the kernel reporting a count of seconds since boot. -/
theorem try_collect_uptime_nonneg (k : KernelState) (s : sysinfo)
    (h : try_collect (nativeCall k) = Except.ok s) : 0 ≤ s.uptime := by
  simp [try_collect, nativeCall] at h
  subst h
  exact Int.natCast_nonneg k.uptimeSeconds

/-- Witness for C7 at the sample kernel state. -/
theorem try_collect_uptime_nonneg_witness :
    0 ≤ (collect (nativeCall k0)).uptime :=
  try_collect_uptime_nonneg k0 (collect (nativeCall k0))
    (by simp [try_collect, collect, nativeCall])

/-- Claim C9: the snapshot type exposes a caller-readable 16-bit (2-byte)
unsigned padding field named pad placed between procs and totalhigh, and
a query whose native call does not overwrite it returns it as zero. -/
theorem pad_field_exposed :
    rustSysinfoFields[8]? = some ⟨"procs", 2, 2, false⟩ ∧
    rustSysinfoFields[9]? = some ⟨"pad", 2, 2, false⟩ ∧
    rustSysinfoFields[10]? = some ⟨"totalhigh", 8, 8, false⟩ ∧
    ∀ (w : NativeWrite) (stat : Int),
      w.pad? = none → (collect ⟨stat, applyWrite w⟩).pad = 0 := by
  refine ⟨rfl, rfl, rfl, ?_⟩
  intro w stat h
  simp [collect, applyWrite, zeroed, h]

/-- Witness for C9: the pad field of a query whose native call writes
nothing is zero. -/
theorem pad_field_exposed_witness :
    (collect ⟨2, applyWrite emptyWrite⟩).pad = 0 :=
  pad_field_exposed.2.2.2 emptyWrite 2 rfl

/-- Claim C10: on the failure path `try_collect` never returns a
snapshot: for every non-zero status it is not `Ok` of any snapshot and
equals the error value. -/
theorem try_collect_error_no_snapshot (env : NativeBehavior) (h : env.status ≠ 0) :
    (∀ s : sysinfo, try_collect env ≠ Except.ok s) ∧
    ∃ e : String, try_collect env = Except.error e := by
  constructor
  · intro s hs
    simp [try_collect, h] at hs
  · exact ⟨"Failed to get the sysinfo struct", by simp [try_collect, h]⟩

/-- Witness for C10 at a failing behaviour with status 2. -/
theorem try_collect_error_no_snapshot_witness :
    try_collect ⟨2, id⟩ ≠ Except.ok zeroed ∧
    ∃ e : String, try_collect ⟨2, id⟩ = Except.error e :=
  ⟨(try_collect_error_no_snapshot ⟨2, id⟩ (by decide)).1 zeroed,
   (try_collect_error_no_snapshot ⟨2, id⟩ (by decide)).2⟩

end SysinfoDotH
